import Mathlib

set_option maxRecDepth 200000

/-!
Verification development for the metagenomic classification pipeline
(src/metagenomic_classifier.py).  The Python source is shallowly embedded:

* the filesystem enumeration result of glob (line 81) is modelled as the
  input list of path strings, and a path exists exactly when it is in that
  list;
* Python string operations (split, replace, strip, basename, splitext) are
  re-implemented over lists of characters so that every definition reduces
  in the kernel;
* the two external tools (kraken2 and bracken) are opaque collaborators:
  an environment maps every sample identifier to the observable outcome of
  its tool invocations (exit status, report rows);
* pandas dataframe cells are modelled as raw strings: read_csv performs no
  validation that any claim here depends on, and the CSV round-trips the
  cell text unchanged.
-/

/-! ### Python string primitives, re-implemented over character lists -/

/-- Drops leading whitespace characters, as Python str.strip does on the
left end of a string. -/
def dropLeadWs : List Char → List Char
  | [] => []
  | c :: r => if c.isWhitespace then dropLeadWs r else c :: r

/-- Python str.strip(): remove leading and trailing whitespace. -/
def pyStrip (s : String) : String :=
  String.mk (dropLeadWs (dropLeadWs s.data.reverse).reverse)

/-- Worker for pySplitOn: splits at non-overlapping occurrences of pat,
scanning left to right, exactly as Python str.split(pat) does for a
non-empty pattern.  The fuel argument only bounds recursion; it starts at
the length of the scanned list and never runs out before the list does. -/
def splitAux (pat : List Char) : Nat → List Char → List (List Char)
  | _, [] => [[]]
  | 0, rest => [rest]
  | fuel + 1, c :: rest =>
    if pat.isPrefixOf (c :: rest) then
      [] :: splitAux pat fuel ((c :: rest).drop pat.length)
    else
      match splitAux pat fuel rest with
      | [] => [[c]]
      | w :: ws => (c :: w) :: ws

/-- Python s.split(pat) for a non-empty pattern pat. -/
def pySplitOn (s pat : String) : List String :=
  (splitAux pat.data s.data.length s.data).map String.mk

/-- Joins character lists with a separator (Python sep.join). -/
def joinWith (sep : List Char) : List (List Char) → List Char
  | [] => []
  | [w] => w
  | w :: ws => w ++ sep ++ joinWith sep ws

/-- Python s.replace(pat, rep): replace every non-overlapping occurrence. -/
def pyReplace (s pat rep : String) : String :=
  String.mk (joinWith rep.data (splitAux pat.data s.data.length s.data))

/-- Python membership test pat in s (for a non-empty pattern): the split at
pat has more than one part exactly when pat occurs in s. -/
def pyContains (s pat : String) : Bool :=
  (pySplitOn s pat).length != 1

/-- Python s.endswith(suffix). -/
def pyEndsWith (s suffix : String) : Bool :=
  suffix.data.isSuffixOf s.data

/-- Python os.path.basename: the part after the last slash. -/
def basename (p : String) : String :=
  (pySplitOn p "/").getLastD p

/-- The root part of os.path.splitext: cut at the last dot, except that a
name whose characters before its last dot are all dots (such as .fastq) is
not split at all, following the CPython implementation. -/
def splitextRoot (s : String) : String :=
  let ps := pySplitOn s "."
  if ps.length ≤ 1 then s
  else
    let root := String.mk (joinWith ['.'] (ps.dropLast.map String.data))
    if root.data.all (fun c => c = '.') then s else root

/-! ### Error taxonomy

One constructor per exception the orchestration layer raises or catches:
FileNotFoundError from discover_samples (line 83), CalledProcessError from
run_cmd (line 70), the two RuntimeError sites (lines 141 and 168), and the
pandas parse failure on a raw report row that does not have exactly the six
declared columns (line 180). -/
inductive Err where
  | noInputFilesFound
  | externalToolError (code : Int)
  | emptyReportError
  | refinementFailedError
  | malformedReportError
deriving DecidableEq

/-! ### Sample discovery (discover_samples, lines 74 to 104) -/

/-- Python dict assignment samples[k] = v: overwrite in place when the key
is present, otherwise append, preserving insertion order. -/
def dictInsert (m : List (String × List String)) (k : String) (v : List String) :
    List (String × List String) :=
  match m with
  | [] => [(k, v)]
  | (k0, v0) :: rest => if k0 = k then (k, v) :: rest else (k0, v0) :: dictInsert rest k v

/-- Line 86: the file is a read-1 candidate when its basename contains the
marker _R1. -/
def hasR1 (p : String) : Bool := pyContains (basename p) "_R1"

/-- Line 90: sample identifier of a read-1 candidate, the basename part
before the first occurrence of _R1. -/
def r1SampleId (p : String) : String := (pySplitOn (basename p) "_R1").headD ""

/-- Line 91: the expected read-2 partner path, every occurrence of _R1 in
the full path replaced by _R2. -/
def r2Partner (p : String) : String := pyReplace p "_R1" "_R2"

/-- Lines 92 to 95: the dict entry registered for one read-1 candidate:
paired with the partner in read-1-then-read-2 order when the partner path
exists (that is, is among the enumerated files), single-end otherwise. -/
def pairEntry (fastq_files : List String) (r1 : String) : String × List String :=
  let r2 := r2Partner r1
  (r1SampleId r1, if fastq_files.contains r2 then [r1, r2] else [r1])

/-- Lines 86 to 95: the samples dict after the read-1 loop. -/
def pairPhase (fastq_files : List String) : List (String × List String) :=
  (fastq_files.filter hasR1).foldl
    (fun m r1 => dictInsert m (pairEntry fastq_files r1).1 (pairEntry fastq_files r1).2) []

/-- Line 98: used_files, the concatenation of every registered file list. -/
def usedFiles (m : List (String × List String)) : List String :=
  (m.map Prod.snd).flatten

/-- Line 99: the enumerated files consumed by no read-1 entry. -/
def unpairedFiles (fastq_files : List String) : List String :=
  fastq_files.filter (fun f => !(usedFiles (pairPhase fastq_files)).contains f)

/-- Line 101: identifier of an unpaired file, the basename with up to two
extensions stripped. -/
def unpairedSampleId (p : String) : String := splitextRoot (splitextRoot (basename p))

/-- discover_samples (lines 74 to 104).  The argument models the glob
result fastq_files; the returned association list models the samples dict
in insertion order. -/
def discover_samples (fastq_files : List String) :
    Except Err (List (String × List String)) :=
  if fastq_files.isEmpty then .error .noInputFilesFound
  else
    .ok ((unpairedFiles fastq_files).foldl
      (fun m f => dictInsert m (unpairedSampleId f) [f]) (pairPhase fastq_files))

/-- Every sample identifier the run derives, in derivation order: one per
read-1 candidate (line 90), then one per unpaired file (line 101). -/
def derivedIds (fastq_files : List String) : List String :=
  (fastq_files.filter hasR1).map r1SampleId
    ++ (unpairedFiles fastq_files).map unpairedSampleId

/-! ### External tool command assembly (run_cmd, run_kraken2, run_bracken)

run_cmd (lines 62 to 71) hands its cmd argument to subprocess.run with
shell equal to True: the process-launch primitive receives ONE string and a
shell derives the argument vector from it.  run_kraken2 (lines 121 to 138)
builds that string by joining hand-quoted fragments with spaces; the
functions below reproduce the exact string. -/

/-- The single-quote character, written by code point. -/
def squoteChar : Char := Char.ofNat 39

/-- Wraps a value in single quotes, as the f-strings on lines 123 to 137
do. -/
def squote (s : String) : String :=
  String.mk (squoteChar :: s.data ++ [squoteChar])

/-- The one shell string run_kraken2 passes to run_cmd (lines 121 to 138):
the joined fragment list, including the manual quoting. -/
def kraken2CmdString (sample_id db_path : String) (threads : Nat)
    (fastq_files : List String) : String :=
  let report := "/tmp/" ++ sample_id ++ ".kraken2.report"
  let output := "/tmp/" ++ sample_id ++ ".kraken2.out"
  let is_paired := fastq_files.length == 2
  let is_gz := fastq_files.any (fun f => pyEndsWith f ".gz")
  let cmd := ["kraken2",
    "--db " ++ squote db_path,
    "--threads " ++ toString threads,
    "--use-names",
    "--report-zero-counts",
    "--memory-mapping",
    "--report " ++ squote report,
    "--output " ++ squote output]
  let cmd := cmd ++ (if is_paired then ["--paired"] else [])
  let cmd := cmd ++ (if is_gz then ["--gzip-compressed"] else [])
  let cmd := cmd ++ fastq_files.map squote
  String.mk (joinWith [' '] (cmd.map String.data))

/-- The one shell string run_bracken passes to run_cmd (lines 159 to 165). -/
def brackenCmdString (kraken_report db_path : String) (read_len : Nat)
    (level : String) : String :=
  let bracken_out := pyReplace kraken_report ".kraken2.report" ".bracken"
  "bracken -d " ++ squote db_path ++ " -i " ++ squote kraken_report
    ++ " -o " ++ squote bracken_out ++ " -r " ++ toString read_len
    ++ " -l " ++ level

/-- POSIX shell word splitting restricted to the character repertoire the
generated commands contain: a space outside single quotes separates words,
a single quote toggles quoting, every other character is literal.  This is
how the shell behind subprocess.run with shell equal to True derives the
argument vector from the single command string.  Returns the words and
whether every quote was terminated. -/
def shellSplitAux : List Char → Bool → Option (List Char) → List String × Bool
  | [], inQuote, cur =>
    (match cur with | none => [] | some w => [String.mk w], !inQuote)
  | c :: rest, inQuote, cur =>
    if c = squoteChar then
      shellSplitAux rest (!inQuote) (some (cur.getD []))
    else if c = ' ' ∧ !inQuote then
      match cur with
      | none => shellSplitAux rest inQuote none
      | some w => let (ws, ok) := shellSplitAux rest inQuote none
                  (String.mk w :: ws, ok)
    else
      shellSplitAux rest inQuote (some (cur.getD [] ++ [c]))

/-- Splits a full command line into the argument vector the shell would
produce. -/
def shellSplit (s : String) : List String × Bool :=
  shellSplitAux s.data false none


/-! ### Report normalization (parse_species_abundance, lines 172 to 189)

Dataframe cells are modelled as the raw strings read from the report file:
pd.read_csv infers column dtypes but performs no validation and no
non-negativity coercion, and a value it parsed is written back to the CSV
as the same text.  A raw (kraken2) report row is six tab-separated fields
(line 184); a row with a different field count makes pd.read_csv fail,
modelled as the malformed-report error.  (pandas fills rows with FEWER
fields with NaN instead of failing; no claim below exercises that corner,
and it is folded into the same error constructor.) -/

/-- One row of the raw hierarchical report, named as on line 184. -/
structure RawRow where
  perc : String
  reads_rooted : String
  reads_direct : String
  rank : String
  taxid : String
  name : String
deriving DecidableEq

/-- Reads one tab-split line into the six declared columns. -/
def toRawRow (cells : List String) : Option RawRow :=
  match cells with
  | [a, b, c, d, e, f] => some ⟨a, b, c, d, e, f⟩
  | _ => none

/-- pd.read_csv of the raw report (lines 180 to 185). -/
def readRawTable : List (List String) → Except Err (List RawRow)
  | [] => .ok []
  | r :: rest =>
    match toRawRow r with
    | none => .error .malformedReportError
    | some rr => (readRawTable rest).map (fun t => rr :: t)

/-- Lines 186 and 188: keep rows whose rank is S, project to the name and
reads_rooted columns, then strip whitespace from the name. -/
def projectSpecies (t : List RawRow) : List (String × String) :=
  (t.filter (fun r => r.rank == "S")).map (fun r => (pyStrip r.name, r.reads_rooted))

/-- The raw-format branch of parse_species_abundance (lines 179 to 188). -/
def parse_species_abundance_raw (rows : List (List String)) :
    Except Err (List (String × String)) :=
  (readRawTable rows).map projectSpecies

/-- One row of the refined (bracken) report, restricted to the two columns
the code selects on line 177. -/
structure RefinedRow where
  name : String
  new_est_reads : String
deriving DecidableEq

/-- The refined-format branch of parse_species_abundance (lines 174 to 177
and 188): project every row to the name and new_est_reads columns and
strip whitespace from the name. -/
def parse_species_abundance_refined (rows : List RefinedRow) : List (String × String) :=
  rows.map (fun r => (pyStrip r.name, r.new_est_reads))

/-- Modelled from the spec (claim C6 wording): retain rows whose rank code
marks the species level and project each to the pair of the name and the
reads_at_rank count, THE THIRD COLUMN.  Stated over tab-split lines with
positional access; used only to compare the source normalizer against the
claim. -/
def specSpeciesDirectProjection (rows : List (List String)) : List (String × String) :=
  rows.filterMap (fun r =>
    if r.getD 3 "" == "S" then some (pyStrip (r.getD 5 ""), r.getD 2 "") else none)

/-- The same projection with the SECOND column (reads at or below the
rank), which is what the amended claim C6 states. -/
def specSpeciesRootedProjection (rows : List (List String)) : List (String × String) :=
  rows.filterMap (fun r =>
    if r.getD 3 "" == "S" then some (pyStrip (r.getD 5 ""), r.getD 1 "") else none)

/-! ### Per-sample pipeline and orchestration (run_kraken2, run_bracken,
main, lines 107 to 255)

The external tools are opaque: an environment maps each sample identifier
to the observable outcome of its kraken2 invocation and (when enabled) its
bracken invocation.  The read files of a sample only shape the issued
command string, which kraken2CmdString models separately. -/

/-- Outcome of one kraken2 invocation for one sample: a non-zero exit from
run_cmd (line 67), a missing or zero-length report file (line 140), or a
non-empty report whose tab-split lines are given.  In the report case the
report file exists in /tmp and the paired output file was written and then
removed (lines 143 to 145). -/
inductive KrakenOutcome where
  | toolFail (code : Int)
  | emptyReport
  | report (rows : List (List String))

/-- Outcome of one bracken invocation: non-zero exit (line 67), exit zero
with no output file (line 167), or an output whose rows are given. -/
inductive BrackenOutcome where
  | toolFail (code : Int)
  | missing
  | output (rows : List RefinedRow)

/-- The observable behavior of the external tools for one sample. -/
structure SampleEnv where
  kraken : KrakenOutcome
  bracken : BrackenOutcome

/-- Path of the kraken2 report artifact for a sample (line 115). -/
def krakenReportPath (sample_id : String) : String :=
  "/tmp/" ++ sample_id ++ ".kraken2.report"

/-- The body of the per-sample try block in main (lines 226 to 250),
excluding the CSV append: run kraken2, optionally run bracken, normalize
the chosen report, and on success delete the artifacts (lines 248 to 250).
Returns the normalized records (or the raised error) together with the
list of report artifacts still present in /tmp when control leaves the
sample.  The source deletes artifacts only on the success path; an
exception skips lines 248 to 250, which is why the failure branches below
leave the kraken2 report behind. -/
def runSample (use_bracken : Bool) (env : String → SampleEnv) (sample_id : String) :
    Except Err (List (String × String)) × List String :=
  let report := krakenReportPath sample_id
  match (env sample_id).kraken with
  | .toolFail code => (.error (.externalToolError code), [])
  | .emptyReport => (.error .emptyReportError, [])
  | .report rows =>
    if use_bracken then
      match (env sample_id).bracken with
      | .toolFail code => (.error (.externalToolError code), [report])
      | .missing => (.error .refinementFailedError, [report])
      | .output rrows => (.ok (parse_species_abundance_refined rrows), [])
    else
      match parse_species_abundance_raw rows with
      | .error e => (.error e, [report])
      | .ok recs => (.ok recs, [])

/-- The mutable state of the loop in main: the CSV written so far (a list
of comma-separated lines, each a list of cells), the first flag governing
the header (lines 221 and 244), and the success counter. -/
structure LoopState where
  csv : List (List String)
  first : Bool
  success : Nat
deriving DecidableEq

/-- State before the loop (lines 220 to 222). -/
def initState : LoopState := ⟨[], true, 0⟩

/-- One iteration of the loop in main (lines 224 to 253): on success the
one-row wide frame df_t (the sample taxa as columns, SampleID appended, in
report order) is appended to the CSV, with a header line only for the
first successful sample; on any raised error the state is unchanged and
the loop proceeds (lines 252 to 253). -/
def processSample (use_bracken : Bool) (env : String → SampleEnv)
    (st : LoopState) (s : String × List String) : LoopState :=
  match (runSample use_bracken env s.1).1 with
  | .ok recs =>
    { csv := st.csv ++ (if st.first then [recs.map Prod.fst ++ ["SampleID"]] else [])
        ++ [recs.map Prod.snd ++ [s.1]],
      first := false,
      success := st.success + 1 }
  | .error _ => st

/-- The whole loop of main over the discovered samples, in dict insertion
order. -/
def mainLoop (use_bracken : Bool) (env : String → SampleEnv)
    (samples : List (String × List String)) : LoopState :=
  samples.foldl (processSample use_bracken env) initState

/-! ### Outcome counters and concrete fixtures used by the theorems -/

/-- Number of samples whose per-sample pipeline succeeds under a given
environment (the value of the success counter, line 245, after the loop). -/
def okCount (use_bracken : Bool) (env : String → SampleEnv)
    (samples : List (String × List String)) : Nat :=
  (samples.filter (fun s => ((runSample use_bracken env s.1).1).isOk)).length

/-- Number of samples whose per-sample pipeline raises (the samples logged
on line 253). -/
def failCount (use_bracken : Bool) (env : String → SampleEnv)
    (samples : List (String × List String)) : Nat :=
  (samples.filter (fun s => !((runSample use_bracken env s.1).1).isOk)).length

/-- A Bool test for a decimal-digit-only string; used only to state that a
count value emitted by the normalizer is not numeric. -/
def isNatString (s : String) : Bool :=
  !s.data.isEmpty && s.data.all Char.isDigit

/-- Environment with two well-formed samples: S1 observes one species, S2
observes two (the second sample introduces a taxon unseen by the first). -/
def envTwo : String → SampleEnv := fun sample_id =>
  if sample_id = "S1" then
    ⟨.report [["40.0", "10", "10", "S", "561", "Escherichia coli"]], .missing⟩
  else
    ⟨.report [["25.0", "5", "5", "S", "561", "Escherichia coli"],
              ["15.0", "3", "3", "S", "1578", "Lactobacillus"]], .missing⟩

/-- The two discovered samples matching envTwo, in dict order. -/
def samplesTwo : List (String × List String) :=
  [("S1", ["S1.fastq"]), ("S2", ["S2.fastq"])]

/-- Environment with three samples of which exactly the second fails: its
report has a seven-field row that the reader rejects. -/
def envThree : String → SampleEnv := fun sample_id =>
  if sample_id = "S1" then
    ⟨.report [["40.0", "10", "10", "S", "561", "Escherichia coli"]], .missing⟩
  else if sample_id = "S2" then
    ⟨.report [["1", "2", "3", "4", "5", "6", "7"]], .missing⟩
  else
    ⟨.report [["25.0", "5", "5", "S", "561", "Escherichia coli"],
              ["15.0", "3", "3", "S", "1578", "Lactobacillus"]], .missing⟩

/-- The three discovered samples matching envThree, in dict order. -/
def samplesThree : List (String × List String) :=
  [("S1", ["S1.fastq"]), ("S2", ["S2.fastq"]), ("S3", ["S3.fastq"])]

/-- Environment whose every kraken2 invocation leaves a missing or
zero-length report. -/
def envEmpty : String → SampleEnv := fun _ => ⟨.emptyReport, .missing⟩

/-- Environment for the artifact-leak demonstrations: sample S gets a
malformed kraken2 report (seven fields in a row), any other sample gets a
good kraken2 report but a bracken invocation that exits non-zero. -/
def envLeak : String → SampleEnv := fun sample_id =>
  if sample_id = "S" then
    ⟨.report [["1", "2", "3", "4", "5", "6", "7"]], .missing⟩
  else
    ⟨.report [["40.0", "10", "10", "S", "561", "Escherichia coli"]], .toolFail 1⟩

/-- A raw report row whose at-or-below-rank count (100) differs from its
at-rank count (7). -/
def c6Row : List String := ["5.0", "100", "7", "S", "561", " Escherichia coli"]

/-- Raw report rows with a whitespace-only name and a non-numeric count. -/
def c7Rows : List (List String) :=
  [["1.0", "5", "5", "S", "1", "   "], ["2.0", "abc", "9", "S", "2", " X "]]

/-- Three enumerated read files in which two distinct read-1 candidates
derive the same read-2 partner path. -/
def tripleFiles : List String :=
  ["A_R1_R1.fastq", "A_R2_R1.fastq", "A_R2_R2.fastq"]

/-- The samples dict the source builds from tripleFiles. -/
def tripleSamples : List (String × List String) :=
  [("A", ["A_R1_R1.fastq", "A_R2_R2.fastq"]),
   ("A_R2", ["A_R2_R1.fastq", "A_R2_R2.fastq"])]

/-- A sample name containing a single-quote character. -/
def quotedName : String := "a" ++ String.mk [squoteChar] ++ "b"

/-! ### Normalizer lemmas and claims C6 and C7 -/

/-- A list of length six is literally a six-element list. -/
lemma len_six (r : List String) (h : r.length = 6) :
    ∃ a b c d e f, r = [a, b, c, d, e, f] := by
  rcases r with _ | ⟨a, r⟩; · simp at h
  rcases r with _ | ⟨b, r⟩; · simp at h
  rcases r with _ | ⟨c, r⟩; · simp at h
  rcases r with _ | ⟨d, r⟩; · simp at h
  rcases r with _ | ⟨e, r⟩; · simp at h
  rcases r with _ | ⟨f, r⟩; · simp at h
  rcases r with _ | ⟨g, r⟩
  · exact ⟨a, b, c, d, e, f, rfl⟩
  · simp at h

/-- Reading a table whose every row has the six declared fields succeeds,
whatever the content of the fields. -/
lemma readRawTable_ok (rows : List (List String)) (h6 : ∀ r ∈ rows, r.length = 6) :
    readRawTable rows = .ok (rows.filterMap toRawRow) := by
  induction rows with
  | nil => rfl
  | cons r rest ih =>
    obtain ⟨a, b, c, d, e, f, rfl⟩ := len_six r (h6 r (by simp))
    have ih2 := ih (fun x hx => h6 x (by simp [hx]))
    simp [readRawTable, toRawRow, List.filterMap_cons, ih2, Except.map]

/-- On six-field rows, the projection through the RawRow structure agrees
with the positional projection that picks the SECOND column. -/
lemma projectSpecies_eq_rooted (rows : List (List String))
    (h6 : ∀ r ∈ rows, r.length = 6) :
    projectSpecies (rows.filterMap toRawRow) = specSpeciesRootedProjection rows := by
  induction rows with
  | nil => rfl
  | cons r rest ih =>
    obtain ⟨a, b, c, d, e, f, rfl⟩ := len_six r (h6 r (by simp))
    have ih2 := ih (fun x hx => h6 x (by simp [hx]))
    by_cases hd : d = "S" <;>
      simp [projectSpecies, specSpeciesRootedProjection, toRawRow,
        List.filterMap_cons, List.filter_cons, hd, List.getD, ih2] at ih2 ⊢ <;>
      try exact ih2

/-- Claim C6 (amended): when normalizing a raw-format report, the
normalizer retains only the rows whose rank code is S and projects each
retained row to the pair of the trimmed name and the reads_rooted value,
the SECOND column (the at-or-below-rank count), not the third. -/
theorem raw_normalizer_uses_rooted_count (rows : List (List String))
    (h6 : ∀ r ∈ rows, r.length = 6) :
    parse_species_abundance_raw rows = .ok (specSpeciesRootedProjection rows) := by
  simp [parse_species_abundance_raw, readRawTable_ok rows h6, Except.map,
    projectSpecies_eq_rooted rows h6]

/-- Witness for raw_normalizer_uses_rooted_count at a concrete report. -/
theorem raw_normalizer_uses_rooted_count_witness :
    parse_species_abundance_raw [c6Row] = .ok [("Escherichia coli", "100")] :=
  (raw_normalizer_uses_rooted_count [c6Row] (by decide)).trans (by rfl)

/-- Counterexample to claim C6 as stated: on a species row whose second
column (100) differs from its third column (7), the code emits the second
column, so the output is not the third-column projection the claim
describes. -/
theorem raw_normalizer_differs_from_direct_count :
    parse_species_abundance_raw [c6Row] = .ok [("Escherichia coli", "100")] ∧
    specSpeciesDirectProjection [c6Row] = [("Escherichia coli", "7")] ∧
    (parse_species_abundance_raw [c6Row]).toOption ≠
      some (specSpeciesDirectProjection [c6Row]) :=
  ⟨rfl, rfl, by decide⟩

/-- Claim C7 (amended): both normalization paths trim whitespace from the
name; no row is dropped for having an empty trimmed name, and the count
value is passed through as the raw report text with no numeric coercion
and no failure on a non-numeric count — for the raw path the only failure
condition is a row without exactly six fields. -/
theorem normalizer_trims_keeps_all_rows (rows : List (List String))
    (h6 : ∀ r ∈ rows, r.length = 6) :
    parse_species_abundance_raw rows =
      .ok (((rows.filterMap toRawRow).filter (fun r => r.rank == "S")).map
        (fun r => (pyStrip r.name, r.reads_rooted))) ∧
    ∀ rrows : List RefinedRow,
      parse_species_abundance_refined rrows =
        rrows.map (fun r => (pyStrip r.name, r.new_est_reads)) := by
  refine ⟨?_, fun _ => rfl⟩
  simp [parse_species_abundance_raw, readRawTable_ok rows h6, Except.map, projectSpecies]

/-- Witness for normalizer_trims_keeps_all_rows at concrete reports. -/
theorem normalizer_trims_keeps_all_rows_witness :
    parse_species_abundance_raw c7Rows = .ok [("", "5"), ("X", "abc")] ∧
    parse_species_abundance_refined [⟨" Y ", "7"⟩] = [("Y", "7")] := by
  have h := normalizer_trims_keeps_all_rows c7Rows (by decide)
  exact ⟨h.1.trans (by rfl), (h.2 [⟨" Y ", "7"⟩]).trans (by rfl)⟩

/-- Counterexample to claim C7 as stated: a whitespace-only name is
emitted as an empty-named record instead of being dropped, and a
non-numeric count (abc) is emitted instead of raising the malformed-report
error. -/
theorem normalizer_emits_empty_name_and_nonnumeric_count :
    parse_species_abundance_raw c7Rows = .ok [("", "5"), ("X", "abc")] ∧
    (∃ p ∈ [(("" : String), ("5" : String)), ("X", "abc")], p.1 = "") ∧
    isNatString "abc" = false :=
  ⟨rfl, ⟨("", "5"), by simp⟩, rfl⟩

/-! ### Claims C8, C4, C9, C3, C2, C1 -/

/-- Claim C8: when the primary classifier leaves a missing or zero-length
report, the per-sample pipeline fails that sample with the empty-report
error (never a success with zero taxa), and the loop iteration for that
sample leaves the orchestrator state unchanged, so only that sample is
affected and processing of the remaining samples continues. -/
theorem empty_report_fails_sample (use_bracken : Bool) (env : String → SampleEnv)
    (sample_id : String) (h : (env sample_id).kraken = .emptyReport) :
    (runSample use_bracken env sample_id).1 = .error .emptyReportError ∧
    ∀ (st : LoopState) (fastq_files : List String),
      processSample use_bracken env st (sample_id, fastq_files) = st := by
  constructor
  · simp [runSample, h]
  · intro st fastq_files
    simp [processSample, runSample, h]

/-- Witness for empty_report_fails_sample at a concrete environment. -/
theorem empty_report_fails_sample_witness :
    (runSample false envEmpty "S1").1 = .error .emptyReportError ∧
    processSample false envEmpty initState ("S1", ["a.fastq"]) = initState := by
  have h := empty_report_fails_sample false envEmpty "S1" rfl
  exact ⟨h.1, h.2 initState ["a.fastq"]⟩

/-- Claim C4 is false of the code: on the two concrete failure paths below
(a malformed report after a successful classifier run, and a failed
refiner run after a successful classifier run) the per-sample pipeline
returns with the classifier report artifact still present in /tmp,
because the deletion on lines 248 to 250 runs only on the success path. -/
theorem failed_sample_leaves_report_artifact :
    runSample false envLeak "S" =
      (.error .malformedReportError, [krakenReportPath "S"]) ∧
    runSample true envLeak "T" =
      (.error (.externalToolError 1), [krakenReportPath "T"]) ∧
    krakenReportPath "S" = "/tmp/S.kraken2.report" :=
  ⟨rfl, rfl, rfl⟩

/-- Claim C9: a directory with A_R1.fastq and A_R2.fastq yields exactly
one paired sample A with the paths in read-1-then-read-2 order, and a
directory with only A_R1.fastq yields exactly one single-end sample A. -/
theorem pairing_correctness :
    discover_samples ["A_R1.fastq", "A_R2.fastq"] =
      .ok [("A", ["A_R1.fastq", "A_R2.fastq"])] ∧
    discover_samples ["A_R1.fastq"] = .ok [("A", ["A_R1.fastq"])] :=
  ⟨rfl, rfl⟩

/-- Counterexample to claim C3: the files x/A.fastq and y/A.fastq derive
the same sample identifier A, yet discovery returns successfully with a
single sample holding only the later file — the earlier registration is
silently overwritten and no error of any kind is reported. -/
theorem duplicate_ids_silently_overwrite :
    unpairedSampleId "x/A.fastq" = "A" ∧
    unpairedSampleId "y/A.fastq" = "A" ∧
    discover_samples ["x/A.fastq", "y/A.fastq"] = .ok [("A", ["y/A.fastq"])] :=
  ⟨rfl, rfl, rfl⟩

/-- Claim C3 (amended): sample discovery never reports a duplicate
identifier: its only error is the no-input-files one, raised exactly on an
empty enumeration; when two source files derive the same identifier the
later assignment silently overwrites the earlier file set. -/
theorem discovery_never_reports_duplicate_ids :
    (∀ (fastq_files : List String) (e : Err),
        discover_samples fastq_files = .error e →
          e = .noInputFilesFound ∧ fastq_files = []) ∧
    discover_samples ["d1/S.fastq", "d2/S.fastq"] = .ok [("S", ["d2/S.fastq"])] := by
  constructor
  · intro fastq_files e he
    cases fastq_files with
    | nil =>
      refine ⟨?_, rfl⟩
      simpa [discover_samples] using he.symm
    | cons a t => simp [discover_samples] at he
  · rfl

/-- Witness for discovery_never_reports_duplicate_ids on the empty
enumeration. -/
theorem discovery_never_reports_duplicate_ids_witness :
    Err.noInputFilesFound = Err.noInputFilesFound ∧ ([] : List String) = [] :=
  discovery_never_reports_duplicate_ids.1 [] .noInputFilesFound rfl

/-- Claim C2 is false of the code: run_kraken2 joins its hand-quoted
fragments into ONE string which run_cmd hands to a shell (subprocess.run
with shell equal to True).  Splitting that string the way the shell does
shows (a) even for benign paths the tool arguments are produced by shell
word-splitting of the concatenated string, and (b) for a path containing
a single-quote character neither read path ever reaches the tool as one
argument, and the bracken report argument breaks the same way — the
command structure is altered by the content of the names. -/
theorem kraken2_invocation_is_single_shell_string :
    (shellSplit (kraken2CmdString "A" "/db" 4 ["A_R1.fastq", "A_R2.fastq"])).1 =
      ["kraken2", "--db", "/db", "--threads", "4", "--use-names",
       "--report-zero-counts", "--memory-mapping", "--report",
       "/tmp/A.kraken2.report", "--output", "/tmp/A.kraken2.out", "--paired",
       "A_R1.fastq", "A_R2.fastq"] ∧
    ((shellSplit (kraken2CmdString quotedName "/db" 4
        [quotedName ++ "_R1.fastq", quotedName ++ "_R2.fastq"])).1.contains
      (quotedName ++ "_R1.fastq")) = false ∧
    ((shellSplit (kraken2CmdString quotedName "/db" 4
        [quotedName ++ "_R1.fastq", quotedName ++ "_R2.fastq"])).1.contains
      (quotedName ++ "_R2.fastq")) = false ∧
    ((shellSplit (brackenCmdString (krakenReportPath quotedName) "/db" 150 "S")).1.contains
      (krakenReportPath quotedName)) = false :=
  ⟨rfl, rfl, rfl, rfl⟩

/-- Claim C1 is false of the code: with two successful samples where the
second observes a taxon the first does not, the loop appends each row to
the CSV as soon as the sample is processed (the CSV is non-empty after the
first sample, before the second is attempted), the header is fixed by the
first sample, the later-observed taxon Lactobacillus has no column, and
the rows have 2, 2 and 3 cells — no single union-aligned write occurs. -/
theorem table_written_incrementally_with_column_drift :
    (mainLoop false envTwo samplesTwo).csv =
      [["Escherichia coli", "SampleID"], ["10", "S1"], ["5", "3", "S2"]] ∧
    (runSample false envTwo "S2").1 =
      .ok [("Escherichia coli", "5"), ("Lactobacillus", "3")] ∧
    "Lactobacillus" ∉ (mainLoop false envTwo samplesTwo).csv.headD [] ∧
    ((mainLoop false envTwo samplesTwo).csv.map List.length) = [2, 2, 3] ∧
    (processSample false envTwo initState ("S1", ["S1.fastq"])).csv ≠ [] :=
  ⟨rfl, rfl, by decide, rfl, by decide⟩

/-! ### Loop accounting and claim C5 -/

/-- Splitting a list by a Bool predicate preserves total length. -/
lemma length_filter_not (p : α → Bool) (l : List α) :
    (l.filter p).length + (l.filter (fun a => !p a)).length = l.length := by
  induction l with
  | nil => rfl
  | cons a t ih =>
    by_cases hp : p a <;> simp [List.filter_cons, hp] <;> omega

/-- The success counter and the fail counter partition the sample list. -/
lemma okCount_add_failCount (use_bracken : Bool) (env : String → SampleEnv)
    (samples : List (String × List String)) :
    okCount use_bracken env samples + failCount use_bracken env samples = samples.length :=
  length_filter_not _ samples

/-- Invariant of the loop in main: starting from any state, the loop adds
one success and exactly one CSV line per succeeding sample, plus one
header line when the start state still awaits the header and at least one
sample succeeds. -/
lemma mainFold_stats (use_bracken : Bool) (env : String → SampleEnv)
    (samples : List (String × List String)) : ∀ st : LoopState,
    (samples.foldl (processSample use_bracken env) st).success =
        st.success + okCount use_bracken env samples ∧
    (samples.foldl (processSample use_bracken env) st).csv.length =
        st.csv.length + okCount use_bracken env samples +
          (if st.first = true ∧ okCount use_bracken env samples ≠ 0 then 1 else 0) := by
  induction samples with
  | nil => intro st; simp [okCount]
  | cons s rest ih =>
    intro st
    rcases hrs : (runSample use_bracken env s.1).1 with e | recs
    · have hcount : okCount use_bracken env (s :: rest) = okCount use_bracken env rest := by
        simp [okCount, List.filter_cons, hrs, Except.isOk, Except.toBool]
      have hps : processSample use_bracken env st s = st := by
        simp [processSample, hrs]
      simpa [List.foldl_cons, hps, hcount] using ih st
    · have hcount : okCount use_bracken env (s :: rest) = okCount use_bracken env rest + 1 := by
        simp [okCount, List.filter_cons, hrs, Except.isOk, Except.toBool]
      have hps : processSample use_bracken env st s =
          ⟨st.csv ++ (if st.first then [recs.map Prod.fst ++ ["SampleID"]] else [])
              ++ [recs.map Prod.snd ++ [s.1]], false, st.success + 1⟩ := by
        simp [processSample, hrs]
      obtain ⟨ih1, ih2⟩ := ih (⟨st.csv ++ (if st.first then [recs.map Prod.fst ++ ["SampleID"]] else [])
              ++ [recs.map Prod.snd ++ [s.1]], false, st.success + 1⟩ : LoopState)
      rw [List.foldl_cons, hps]
      constructor
      · rw [ih1, hcount]; simp; omega
      · rw [ih2, hcount]
        by_cases hf : st.first <;>
          simp [hf, List.length_append] <;> omega

/-- Claim C5 (amended): with exactly one failing sample among N, the run
completes with N - 1 recorded successes, and the CSV holds exactly N - 1
data rows (plus the single header line, present whenever N is at least 2);
each data row carries its own sample taxa under the first successful
sample header rather than the cohort union (see the aggregation
counterexample). -/
theorem failure_isolation (use_bracken : Bool) (env : String → SampleEnv)
    (samples : List (String × List String))
    (h1 : failCount use_bracken env samples = 1) :
    (mainLoop use_bracken env samples).success = samples.length - 1 ∧
    (mainLoop use_bracken env samples).csv.length =
      (samples.length - 1) + (if samples.length = 1 then 0 else 1) := by
  have hsum := okCount_add_failCount use_bracken env samples
  obtain ⟨h2, h3⟩ := mainFold_stats use_bracken env samples initState
  simp [initState] at h2 h3
  simp only [mainLoop, initState]
  constructor
  · rw [h2]; omega
  · rw [h3]
    by_cases hok : okCount use_bracken env samples = 0
    · have hN : samples.length = 1 := by omega
      simp [hok, hN]
    · have hN : samples.length ≠ 1 := by omega
      simp [hok, hN]
      omega

/-- Witness for failure_isolation: three samples of which exactly the
second fails; two successes and three CSV lines (header plus two rows). -/
theorem failure_isolation_witness :
    failCount false envThree samplesThree = 1 ∧
    (mainLoop false envThree samplesThree).success = samplesThree.length - 1 ∧
    (mainLoop false envThree samplesThree).csv.length =
      (samplesThree.length - 1) + (if samplesThree.length = 1 then 0 else 1) :=
  ⟨rfl, (failure_isolation false envThree samplesThree rfl).1,
    (failure_isolation false envThree samplesThree rfl).2⟩

/-- Counterexample to claim C5 as stated: the two surviving samples do
produce exactly two data rows, but the rows are not built from the taxa
union of the remaining samples: the surviving sample S3 observes
Lactobacillus, which has no column in the header fixed by S1. -/
theorem surviving_rows_not_union_aligned :
    (mainLoop false envThree samplesThree).success = 2 ∧
    (mainLoop false envThree samplesThree).csv =
      [["Escherichia coli", "SampleID"], ["10", "S1"], ["5", "3", "S3"]] ∧
    (runSample false envThree "S3").1 =
      .ok [("Escherichia coli", "5"), ("Lactobacillus", "3")] ∧
    "Lactobacillus" ∉ (mainLoop false envThree samplesThree).csv.headD [] :=
  ⟨rfl, rfl, rfl, by decide⟩

/-! ### Discovery partition lemmas and claim C10 -/

/-- Inserting a key not yet in the dict appends a new entry. -/
lemma dictInsert_fresh (m : List (String × List String)) (k : String) (v : List String)
    (h : k ∉ m.map Prod.fst) : dictInsert m k v = m ++ [(k, v)] := by
  induction m with
  | nil => rfl
  | cons kv rest ih =>
    rcases kv with ⟨k0, v0⟩
    simp only [List.map_cons, List.mem_cons] at h
    push_neg at h
    simp only [dictInsert]
    rw [if_neg (fun he => h.1 he.symm)]
    simp [ih h.2]

/-- Folding dict insertions whose keys are all fresh and pairwise distinct
just appends the entries in order. -/
lemma foldl_dictInsert_fresh :
    ∀ (es ms : List (String × List String)),
      (ms.map Prod.fst ++ es.map Prod.fst).Nodup →
      es.foldl (fun acc e => dictInsert acc e.1 e.2) ms = ms ++ es := by
  intro es
  induction es with
  | nil => intro ms _; simp
  | cons e rest ih =>
    intro ms h
    rcases e with ⟨k, v⟩
    have hfresh : k ∉ ms.map Prod.fst := by
      rw [List.nodup_append] at h
      intro hmem
      exact h.2.2 hmem (by simp)
    rw [List.foldl_cons]
    have h2 : ((ms ++ [(k, v)]).map Prod.fst ++ rest.map Prod.fst).Nodup := by
      simpa [List.map_append, List.append_assoc] using h
    calc ((rest.foldl (fun acc e => dictInsert acc e.1 e.2) (dictInsert ms k v)))
        = rest.foldl (fun acc e => dictInsert acc e.1 e.2) (ms ++ [(k, v)]) := by
          rw [dictInsert_fresh ms k v hfresh]
      _ = (ms ++ [(k, v)]) ++ rest := ih (ms ++ [(k, v)]) h2
      _ = ms ++ (k, v) :: rest := by simp

/-- The read-1 loop as a fold over its entry list. -/
lemma foldl_paired (fs : List String) (l : List String)
    (ms : List (String × List String)) :
    l.foldl (fun m r1 => dictInsert m (pairEntry fs r1).1 (pairEntry fs r1).2) ms
      = (l.map (pairEntry fs)).foldl (fun acc e => dictInsert acc e.1 e.2) ms := by
  induction l generalizing ms with
  | nil => rfl
  | cons x t ih => simp [List.foldl_cons, ih]

/-- The unpaired loop as a fold over its entry list. -/
lemma foldl_unpaired (l : List String) (ms : List (String × List String)) :
    l.foldl (fun m f => dictInsert m (unpairedSampleId f) [f]) ms
      = (l.map (fun f => (unpairedSampleId f, [f]))).foldl
          (fun acc e => dictInsert acc e.1 e.2) ms := by
  induction l generalizing ms with
  | nil => rfl
  | cons x t ih => simp [List.foldl_cons, ih]

/-- Keys of the read-1 entries are the read-1 sample identifiers. -/
lemma pairEntry_keys (fs l : List String) :
    (l.map (pairEntry fs)).map Prod.fst = l.map r1SampleId := by
  rw [List.map_map]; rfl

/-- Keys of the unpaired entries are the unpaired sample identifiers. -/
lemma unpairedEntry_keys (l : List String) :
    (l.map (fun f => (unpairedSampleId f, [f]))).map Prod.fst
      = l.map unpairedSampleId := by
  rw [List.map_map]; rfl

/-- With distinct read-1 identifiers the read-1 loop registers exactly one
entry per read-1 candidate, in order. -/
lemma pairPhase_eq (fs : List String)
    (h : ((fs.filter hasR1).map r1SampleId).Nodup) :
    pairPhase fs = (fs.filter hasR1).map (pairEntry fs) := by
  rw [pairPhase, foldl_paired]
  have := foldl_dictInsert_fresh ((fs.filter hasR1).map (pairEntry fs)) [] ?_
  · simpa using this
  · simpa [pairEntry_keys] using h

/-- With all derived identifiers distinct, the samples dict is the read-1
entries followed by the unpaired entries. -/
lemma discover_eq (fs : List String) (h : (derivedIds fs).Nodup) (hne : fs ≠ []) :
    discover_samples fs =
      .ok ((fs.filter hasR1).map (pairEntry fs)
        ++ (unpairedFiles fs).map (fun f => (unpairedSampleId f, [f]))) := by
  simp only [derivedIds] at h
  have h1 : ((fs.filter hasR1).map r1SampleId).Nodup := (List.nodup_append.mp h).1
  rw [discover_samples, if_neg (by simpa using hne)]
  rw [foldl_unpaired, pairPhase_eq fs h1]
  rw [foldl_dictInsert_fresh _ _ (by rw [pairEntry_keys, unpairedEntry_keys]; exact h)]

/-- Claim C10 (amended): when all derived sample identifiers are distinct,
every enumerated file appears in AT LEAST one sample path list (none is
omitted), and a read-2 file consumed by pairing is never additionally
registered as its own single-end sample; but a file can appear in two
samples path lists when two distinct read-1 candidates derive the same
read-2 partner path (see the counterexample). -/
theorem discovery_covers_every_file (fastq_files : List String)
    (hids : (derivedIds fastq_files).Nodup)
    (m : List (String × List String))
    (hm : discover_samples fastq_files = .ok m) :
    (∀ f ∈ fastq_files, ∃ kv ∈ m, f ∈ kv.2) ∧
    (∀ f ∈ usedFiles (pairPhase fastq_files), f ∉ unpairedFiles fastq_files) := by
  have hne : fastq_files ≠ [] := by
    intro he; subst he; simp [discover_samples] at hm
  rw [discover_eq fastq_files hids hne] at hm
  have hmeq : m = (fastq_files.filter hasR1).map (pairEntry fastq_files)
      ++ (unpairedFiles fastq_files).map (fun f => (unpairedSampleId f, [f])) := by
    simpa using hm.symm
  have h1 : ((fastq_files.filter hasR1).map r1SampleId).Nodup := by
    simp only [derivedIds] at hids
    exact (List.nodup_append.mp hids).1
  subst hmeq
  constructor
  · intro f hf
    by_cases hused : f ∈ usedFiles (pairPhase fastq_files)
    · have hused2 : f ∈ ((pairPhase fastq_files).map Prod.snd).flatten := hused
      obtain ⟨l, hl, hfl⟩ := List.mem_flatten.mp hused2
      obtain ⟨kv, hkv, rfl⟩ := List.mem_map.mp hl
      rw [pairPhase_eq fastq_files h1] at hkv
      exact ⟨kv, List.mem_append_left _ hkv, hfl⟩
    · have hunp : f ∈ unpairedFiles fastq_files := by
        simp only [unpairedFiles, List.mem_filter]
        exact ⟨hf, by simpa using hused⟩
      exact ⟨(unpairedSampleId f, [f]),
        List.mem_append_right _ (List.mem_map_of_mem _ hunp), by simp⟩
  · intro f hused hunp
    have hc := (List.mem_filter.mp hunp).2
    simp at hc
    exact hc hused

/-- Witness for discovery_covers_every_file on the three-file directory
with distinct identifiers. -/
theorem discovery_covers_every_file_witness :
    ∃ kv ∈ tripleSamples, "A_R2_R1.fastq" ∈ kv.2 :=
  (discovery_covers_every_file tripleFiles (by decide) tripleSamples rfl).1
    "A_R2_R1.fastq" (by decide)

/-- Counterexample to claim C10 as stated: in tripleFiles all derived
identifiers are distinct, yet the file A_R2_R2.fastq appears in the path
lists of TWO samples (it is the derived read-2 partner of both read-1
candidates), so not every enumerated file lies in exactly one sample. -/
theorem read2_file_claimed_by_two_samples :
    discover_samples tripleFiles = .ok tripleSamples ∧
    (derivedIds tripleFiles).Nodup ∧
    (tripleSamples.filter (fun kv => kv.2.contains "A_R2_R2.fastq")).length = 2 :=
  ⟨rfl, by decide, rfl⟩
